import Mathlib

/-!
Shallow embedding of `main.c` from the PSoC 6 QSPI XIP code example.

The program is a single linear control flow: board bring-up, QSPI flash
driver init, an erase / read / write / read-back self-test on one
sector of external flash, a byte compare, the XIP mode transition, two
linker-placement address checks, and an idle LED-blink loop.  All flash
driver calls are external vendor code; the embedding treats their
results (status codes, bytes read, geometry) as an oracle record
`Driver`, and models the program as a function from that oracle to the
observable run: the list of driver calls issued, the console output
(one list entry per `printf` call), the final LED state, and the
terminal state (a terminal failure that busy-loops forever, or the
success idle-blink loop).
-/

/-! ## Constants (macros of `main.c`, lines 54-58) -/

def PACKET_SIZE : Nat := 64

def NUM_BYTES_PER_LINE : Nat := 16

def LED_TOGGLE_DELAY_MSEC : Nat := 1000

def MEM_SLOT_NUM : Nat := 0

def QSPI_BUS_FREQUENCY_HZ : Nat := 50000000

/-- The string placed in external memory (line 64). -/
def hi_word : String := "Hello from the external string!\n"

/-! ## Hexadecimal formatting used by the `printf` calls -/

/-- One uppercase hexadecimal digit, as produced by the `%X` conversions. -/
def hexDigit (n : Nat) : Char :=
  if n < 10 then Char.ofNat (48 + n) else Char.ofNat (55 + n)

/-- Two-digit uppercase hex of a byte: the `%02X` conversion applied to a
`uint8_t` value (always below 256, hence always exactly two digits). -/
def hex2 (b : Fin 256) : String :=
  String.mk [hexDigit (b.val / 16), hexDigit (b.val % 16)]

/-- Eight-digit uppercase hex: the `%08lX` conversion applied to a
`uint32_t` status code. -/
def hex8 (n : Nat) : String :=
  String.mk ((List.range 8).map (fun k => hexDigit (n / 16 ^ (7 - k) % 16)))

/-- Minimal-width lowercase hex: the `%lx` conversion. -/
def hexMin (n : Nat) : String := String.mk (Nat.toDigits 16 n)

/-! ## Buffers and `memcmp` -/

/-- The tx buffer seeding of lines 221-225: `txBuffer[index] = (uint8_t)(index & 0xFF)`.
The bitwise and with `0xFF` happens in `uint32_t`, then the store casts to
`uint8_t` (reduction mod 256). -/
def txBuffer (index : Nat) : Fin 256 :=
  ⟨Nat.land index 0xFF % 256, Nat.mod_lt _ (by decide)⟩

/-- C `memcmp` over byte buffers, comparing `n` bytes starting at `i`:
zero when all bytes agree, otherwise the difference of the first
disagreeing pair of bytes (compared as unsigned chars). -/
def memcmpFrom (a b : Nat → Fin 256) : Nat → Nat → Int
  | _, 0 => 0
  | i, Nat.succ n =>
      if a i = b i then memcmpFrom a b (i + 1) n
      else ((a i : Nat) : Int) - ((b i : Nat) : Int)

def memcmp (a b : Nat → Fin 256) (n : Nat) : Int := memcmpFrom a b 0 n

/-- The implicit conversion of `memcmp`'s `int` result to the `uint32_t`
parameter of `check_status` (line 258): reduction modulo 2^32. -/
def u32ofInt (x : Int) : Nat := (x % 4294967296).toNat

/-! ## `check_status` (lines 99-112) and `check_address` (lines 155-168)

Each of the two checks either does nothing at all, or prints a
diagnostic block, turns the LED on, and busy-loops forever
(`while(true)`).  `CheckEffect` records the console output, the LED
write (if any), and whether the check halts the program. -/

structure CheckEffect where
  output : List String
  ledWrite : Option Bool
  halts : Bool
  deriving DecidableEq, Repr

/-- The separator line printed around every diagnostic and success
block: a newline, eighty equals signs, a newline. -/
def sepLine : String := "\n" ++ String.mk (List.replicate 80 '=') ++ "\n"

/-- The four `printf` calls of the failing branch of `check_status`
(lines 103-106). -/
def failBlockOut (message : String) (status : Nat) : List String :=
  [sepLine,
   "\nFAIL: " ++ message ++ "\n",
   "Error Code: 0x" ++ hex8 status ++ "\n",
   sepLine]

/-- `check_status` (lines 99-112): on nonzero status, print the
diagnostic block, turn the LED on and halt forever; on zero status, do
nothing (no output, no LED write, fall through to the caller). -/
def check_status (message : String) (status : Nat) : CheckEffect :=
  if status ≠ 0 then
    { output := failBlockOut message status, ledWrite := some true, halts := true }
  else
    { output := [], ledWrite := none, halts := false }

/-- The four `printf` calls of the failing branch of `check_address`
(lines 159-162). -/
def addrFailBlockOut (message : String) (addr : Nat) : List String :=
  [sepLine,
   "FAIL: " ++ message ++ "\n",
   "Address: 0x" ++ hexMin addr,
   sepLine]

/-- `check_address` (lines 155-168): compares the configured base
address of memory slot 0 (`smifMemConfigs[MEM_SLOT_NUM]->baseAddress`)
against the symbol address; when `baseAddress > addr` it prints the
diagnostic block, turns the LED on and halts forever, otherwise it does
nothing. -/
def check_address (message : String) (baseAddress addr : Nat) : CheckEffect :=
  if baseAddress > addr then
    { output := addrFailBlockOut message addr, ledWrite := some true, halts := true }
  else
    { output := [], ledWrite := none, halts := false }

/-! ## `print_array` (lines 126-140) -/

/-- The body of the `for` loop of `print_array`, with `rem` iterations
left starting at `index`: print the byte as `"0x%02X "` and a newline
after every `NUM_BYTES_PER_LINE`-th byte. -/
def printBytes (buf : Nat → Fin 256) : Nat → Nat → List String
  | _, 0 => []
  | index, Nat.succ rem =>
      ["0x" ++ hex2 (buf index) ++ " "] ++
      (if (index + 1) % NUM_BYTES_PER_LINE = 0 then ["\n"] else []) ++
      printBytes buf (index + 1) rem

/-- `print_array` (lines 126-140): the header `printf`s then the byte
loop from index 0. -/
def print_array (message : String) (buf : Nat → Fin 256) (size : Nat) : List String :=
  ["\n" ++ message ++ " (" ++ toString size ++ " bytes):\n",
   "-------------------------\n"] ++
  printBytes buf 0 size

/-- `print_from_external_memory` (lines 82-85): a single `printf("%s", buf)`. -/
def print_from_external_memory (buf : String) : List String := [buf]

/-! ## The abstract driver oracle and the observable run -/

/-- Results of the external vendor driver calls made by `main`: status
codes returned, geometry queried, bytes deposited into `rxBuffer` by the
first read (after erase) and by the second read (after write), and the
link-time addresses of the two externally-placed symbols. -/
structure Driver where
  initStatus : Nat
  totalSize : Nat
  sectorSize : Nat
  eraseStatus : Nat
  readStatus1 : Nat
  readData1 : Nat → Fin 256
  writeStatus : Nat
  readStatus2 : Nat
  readData2 : Nat → Fin 256
  baseAddress : Nat
  hiWordAddr : Nat
  funcAddr : Nat

/-- The driver calls `main` can issue, in program order. -/
inductive Call where
  | qspiInit
  | getEraseSize
  | getSize
  | eraseOp (addr len : Nat)
  | readOp (addr len : Nat)
  | writeOp (addr len : Nat)
  | enableXip
  deriving DecidableEq, Repr

/-- Program points at which a check can halt the program. -/
inductive Step where
  | initQSPI
  | eraseStep
  | readAfterErase
  | writeStep
  | readback
  | compareStep
  | placementString
  | placementFunc
  deriving DecidableEq, Repr

/-- Terminal state of a run.  `failedStatus` / `failedAddress` model the
`while(true)` busy loop inside `check_status` / `check_address`: the
program parks there forever and never returns to any caller.
`idleBlink` models the final `for(;;)` LED-toggle loop reached only
when every check passed. -/
inductive Final where
  | failedStatus (s : Step) (message : String) (code : Nat)
  | failedAddress (s : Step) (message : String) (addr : Nat)
  | idleBlink
  deriving DecidableEq, Repr

/-- LED state at the end of the run: `on` (steady, failure indicator)
or `blinking` (the success idle loop toggling forever). -/
inductive Led where
  | off
  | on
  | blinking
  deriving DecidableEq, Repr

/-- The observable outcome of one run of `main`. -/
structure RunResult where
  calls : List Call
  output : List String
  led : Led
  final : Final

/-- Outcome of a run halted by a failing `check_status`: the calls and
output so far, the diagnostic block, the LED turned on, parked forever. -/
def failResult (cs : List Call) (os : List String) (s : Step) (m : String) (c : Nat) :
    RunResult :=
  { calls := cs, output := os ++ failBlockOut m c, led := Led.on,
    final := Final.failedStatus s m c }

/-- Outcome of a run halted by a failing `check_address`. -/
def addrFailResult (cs : List Call) (os : List String) (s : Step) (m : String) (a : Nat) :
    RunResult :=
  { calls := cs, output := os ++ addrFailBlockOut m a, led := Led.on,
    final := Final.failedAddress s m a }

/-- Lines 228-230: `extMemAddress` starts at `0x00`, then is set to the
erase-sector size queried from the driver, i.e. the start of the second
sector. -/
def computeExtMemAddress (sectorSize : Nat) : Nat := sectorSize

/-- The two `printf` calls preceding the self-test (lines 207-208). -/
def bannerOut : List String :=
  ["\x1b[2J\x1b[;H",
   "*************** PSoC 6 MCU: External Flash Access in XIP Mode ***************\n\n"]

/-- The success block printed after the byte compare (lines 261-263). -/
def compareSuccessOut : List String :=
  [sepLine,
   "\nSUCCESS: Read data matches with written data!\n",
   sepLine]

/-- The success block printed after the XIP accesses (lines 282-284). -/
def xipSuccessOut : List String :=
  [sepLine,
   "\nSUCCESS: Data successfully accessed in XIP mode!\n",
   sepLine]

/-- `main` (lines 188-291), as a function of the driver oracle.  Each
`check_status(msg, st)` call in the source either falls through (when
`st = 0`) or becomes a terminal `failResult` (when `st ≠ 0`); likewise
`check_address` with its `baseAddress > addr` test.  The branch
conditions below are exactly the conditions those two functions test. -/
def runMain (d : Driver) : RunResult :=
  let out := bannerOut
  let calls := [Call.qspiInit]
  if d.initStatus ≠ 0 then
    failResult calls out Step.initQSPI "Serial Flash initialization failed" d.initStatus
  else
    let calls := calls ++ [Call.getEraseSize]
    let extMemAddress := computeExtMemAddress d.sectorSize
    let calls := calls ++ [Call.getSize]
    let out := out ++ ["\n1. Total Flash Size: " ++ toString d.totalSize ++ " bytes.\n"]
    let out := out ++ ["\n1. Erasing " ++ toString d.sectorSize ++ " bytes of memory.\n"]
    let calls := calls ++ [Call.eraseOp extMemAddress d.sectorSize]
    if d.eraseStatus ≠ 0 then
      failResult calls out Step.eraseStep "Erasing memory failed" d.eraseStatus
    else
      let out := out ++
        ["\n2. Reading after Erase. Ensure that the data read is 0xFF for each byte.\n"]
      let calls := calls ++ [Call.readOp extMemAddress PACKET_SIZE]
      if d.readStatus1 ≠ 0 then
        failResult calls out Step.readAfterErase "Reading memory failed" d.readStatus1
      else
        let out := out ++ print_array "Received Data" d.readData1 PACKET_SIZE
        let out := out ++ ["\n3. Writing data to memory.\n"]
        let calls := calls ++ [Call.writeOp extMemAddress PACKET_SIZE]
        if d.writeStatus ≠ 0 then
          failResult calls out Step.writeStep "Writing to memory failed" d.writeStatus
        else
          let out := out ++ print_array "Written Data" txBuffer PACKET_SIZE
          let out := out ++ ["\n4. Reading back for verification.\n"]
          let calls := calls ++ [Call.readOp extMemAddress PACKET_SIZE]
          if d.readStatus2 ≠ 0 then
            failResult calls out Step.readback "Reading memory failed" d.readStatus2
          else
            let out := out ++ print_array "Received Data" d.readData2 PACKET_SIZE
            let cmp := u32ofInt (memcmp txBuffer d.readData2 PACKET_SIZE)
            if cmp ≠ 0 then
              failResult calls out Step.compareStep
                "Read data does not match with written data. Read/Write operation failed." cmp
            else
              let out := out ++ compareSuccessOut
              let out := out ++ ["\n5. Entering XIP Mode.\n"]
              let calls := calls ++ [Call.enableXip]
              if d.baseAddress > d.hiWordAddr then
                addrFailResult calls out Step.placementString
                  "String not found in external memory." d.hiWordAddr
              else
                let out := out ++
                  ["\nString in the external memory at address: 0x" ++ hexMin d.hiWordAddr]
                let out := out ++
                  ["\n-------------------------------------------------------\n" ++ hi_word]
                if d.baseAddress > d.funcAddr then
                  addrFailResult calls out Step.placementFunc
                    "Function not found in external memory." d.funcAddr
                else
                  let out := out ++
                    ["\nFunction call from external memory address: 0x" ++ hexMin d.funcAddr]
                  let out := out ++ ["\n-------------------------------------------------------"]
                  let out := out ++
                    print_from_external_memory "\nHello from the external function!\n"
                  let out := out ++ xipSuccessOut
                  { calls := calls, output := out, led := Led.blinking, final := Final.idleBlink }

/-! ## Spec-modelled flash-content semantics (for the idempotence property)

The erase and write driver calls are vendor code outside this
repository; their effect on the flash contents is modelled from the
spec's driver contract. -/

/-- Modelled from the spec: `erase(address, length)` of the flash driver
collaborator ("after erasing a sector and reading back any sub-range
within it, every byte read equals the device's documented erased value",
conventionally `0xFF`): every byte in `[addr, addr + len)` becomes
`0xFF`, all other bytes are untouched. -/
def flashErase (f : Nat → Nat) (addr len : Nat) : Nat → Nat :=
  fun a => if addr ≤ a ∧ a < addr + len then 0xFF else f a

/-- Modelled from the spec: `write(address, length, buffer)` of the
flash driver collaborator (write/read round-trip law): byte `a` in
`[addr, addr + len)` becomes `data (a - addr)`, all other bytes are
untouched. -/
def flashWrite (f : Nat → Nat) (addr : Nat) (data : Nat → Nat) (len : Nat) : Nat → Nat :=
  fun a => if addr ≤ a ∧ a < addr + len then data (a - addr) else f a

/-- The flash mutations of one run of the self-test sequence of `main`
(lines 234-259): erase one sector of size `s` at address
`extMemAddress = s`, then write the `PACKET_SIZE`-byte deterministic
pattern there (the two reads do not mutate the flash). -/
def selfTestFlashRun (s : Nat) (f : Nat → Nat) : Nat → Nat :=
  flashWrite (flashErase f (computeExtMemAddress s) s)
    (computeExtMemAddress s) (fun i => (txBuffer i : Nat)) PACKET_SIZE

/-! ## Observation predicates on run results -/

/-- A terminal failure state (either kind parks the program forever). -/
def Final.isTerminalFailure : Final → Bool
  | Final.failedStatus _ _ _ => true
  | Final.failedAddress _ _ _ => true
  | Final.idleBlink => false

/-- Whether the run halted at the given program point. -/
def failedAtStep (f : Final) (s : Step) : Bool :=
  match f with
  | Final.failedStatus s2 _ _ => s2 = s
  | Final.failedAddress s2 _ _ => s2 = s
  | Final.idleBlink => false

/-- The run ended in a `check_status` terminal failure state with the
failure made visible: the LED is on, the failing nonzero code and its
message appear in a printed diagnostic block, and the program is parked
in the busy loop (never returning to any caller). -/
def RunResult.statusFailureVisible (r : RunResult) : Prop :=
  r.led = Led.on ∧
  match r.final with
  | Final.failedStatus _ m c =>
      c ≠ 0 ∧ ("\nFAIL: " ++ m ++ "\n") ∈ r.output ∧
      ("Error Code: 0x" ++ hex8 c ++ "\n") ∈ r.output
  | Final.failedAddress _ _ _ => False
  | Final.idleBlink => False

/-- A driver oracle on which every check passes: all statuses zero, the
read-back after write returning exactly the written pattern, both
symbols placed at or above the configured base address. -/
def okDriver : Driver :=
  { initStatus := 0
    totalSize := 67108864
    sectorSize := 4096
    eraseStatus := 0
    readStatus1 := 0
    readData1 := fun _ => (255 : Fin 256)
    writeStatus := 0
    readStatus2 := 0
    readData2 := txBuffer
    baseAddress := 402653184
    hiWordAddr := 402653200
    funcAddr := 402653440 }

/-! ## Helper lemmas -/

theorem failResult_calls (cs os s m c) : (failResult cs os s m c).calls = cs := rfl

theorem failResult_led (cs os s m c) : (failResult cs os s m c).led = Led.on := rfl

theorem failResult_final (cs os s m c) :
    (failResult cs os s m c).final = Final.failedStatus s m c := rfl

theorem addrFailResult_led (cs os s m a) : (addrFailResult cs os s m a).led = Led.on := rfl

theorem addrFailResult_final (cs os s m a) :
    (addrFailResult cs os s m a).final = Final.failedAddress s m a := rfl

theorem failResult_visible (cs : List Call) (os : List String) (s : Step) (m : String)
    (c : Nat) (hc : c ≠ 0) : (failResult cs os s m c).statusFailureVisible := by
  refine ⟨rfl, ?_⟩
  show c ≠ 0 ∧ _ ∈ os ++ failBlockOut m c ∧ _ ∈ os ++ failBlockOut m c
  refine ⟨hc, ?_, ?_⟩ <;> simp [failBlockOut]

theorem memcmpFrom_lt (a b : Nat → Fin 256) :
    ∀ n i, -256 < memcmpFrom a b i n ∧ memcmpFrom a b i n < 256 := by
  intro n
  induction n with
  | zero => intro i; simp [memcmpFrom]
  | succ n ih =>
    intro i
    simp only [memcmpFrom]
    split_ifs with hab
    · exact ih (i + 1)
    · have ha := (a i).isLt
      have hb := (b i).isLt
      constructor <;> omega

theorem memcmpFrom_ne_zero (a b : Nat → Fin 256) :
    ∀ n i, (∃ j, j < n ∧ a (i + j) ≠ b (i + j)) → memcmpFrom a b i n ≠ 0 := by
  intro n
  induction n with
  | zero =>
    intro i h
    obtain ⟨j, hj, _⟩ := h
    omega
  | succ n ih =>
    intro i h
    obtain ⟨j, hj, hne⟩ := h
    simp only [memcmpFrom]
    split_ifs with hab
    · apply ih (i + 1)
      match j with
      | 0 => exact absurd hab (by simpa using hne)
      | Nat.succ j2 =>
        refine ⟨j2, by omega, ?_⟩
        have hrw : i + 1 + j2 = i + (j2 + 1) := by omega
        rw [hrw]
        exact hne
    · intro hz
      apply hab
      have hv : ((a i : Nat) : Int) = ((b i : Nat) : Int) := by omega
      exact Fin.val_inj.mp (by exact_mod_cast hv)

theorem u32_memcmp_ne_zero (a b : Nat → Fin 256) (n : Nat)
    (h : ∃ i, i < n ∧ a i ≠ b i) : u32ofInt (memcmp a b n) ≠ 0 := by
  obtain ⟨i, hi, hne⟩ := h
  have hne0 : memcmpFrom a b 0 n ≠ 0 :=
    memcmpFrom_ne_zero a b n 0 ⟨i, hi, by simpa using hne⟩
  have hb := memcmpFrom_lt a b n 0
  unfold u32ofInt memcmp
  omega

/-! ## Claim theorems -/

/-- Claim C2: the written pattern buffer is deterministically seeded so
that for every index `i` in `[0, PACKET_SIZE)` (packet size 64 bytes),
the byte at index `i` equals `i mod 256`. -/
theorem txBuffer_seeded : ∀ i : Nat, i < PACKET_SIZE → (txBuffer i : Nat) = i % 256 := by
  decide

theorem txBuffer_seeded_witness : (txBuffer 10 : Nat) = 10 % 256 :=
  txBuffer_seeded 10 (by decide)

/-- Claim C3: the placement check accepts a symbol whose resolved
address equals the flash window's configured base address (inclusive
lower bound), and halts in the terminal failure state exactly when the
address is strictly below the base address. -/
theorem check_address_boundary (m : String) (base addr : Nat) :
    ((check_address m base addr).halts = true ↔ addr < base) ∧
    (check_address m base base).halts = false := by
  constructor
  · unfold check_address
    split_ifs with h
    · simpa using h
    · simpa using h
  · unfold check_address
    rw [if_neg (by omega)]

/-- Claim C5: the self-test target address equals exactly one
erase-sector size (the start of the second sector, not zero), hence is
a multiple of the device's erase-sector size. -/
theorem extMemAddress_second_sector (s : Nat) (h : 0 < s) :
    computeExtMemAddress s = s ∧ s ∣ computeExtMemAddress s ∧ computeExtMemAddress s ≠ 0 := by
  refine ⟨rfl, dvd_refl s, ?_⟩
  unfold computeExtMemAddress
  omega

theorem extMemAddress_second_sector_witness :
    computeExtMemAddress 4096 = 4096 ∧ 4096 ∣ computeExtMemAddress 4096 ∧
    computeExtMemAddress 4096 ≠ 0 :=
  extMemAddress_second_sector 4096 (by decide)

/-- Claim C6: running the full self-test sequence twice in succession
on the same target sector produces the same final on-flash content both
times, because each run starts with an explicit erase of the sector
before writing the same deterministic pattern (flash semantics modelled
from the spec's driver contract). -/
theorem selfTest_idempotent (s : Nat) (f : Nat → Nat) :
    selfTestFlashRun s (selfTestFlashRun s f) = selfTestFlashRun s f := by
  funext a
  simp only [selfTestFlashRun, flashWrite, flashErase, computeExtMemAddress]
  split_ifs <;> rfl

/-- Claim C9: the placement check enforces only a lower bound: every
address at or above the configured base address passes (the check is a
complete no-op), even arbitrarily far above the flash window; no
upper-bound comparison exists. -/
theorem check_address_no_upper_bound (m : String) (base addr : Nat) (h : base ≤ addr) :
    check_address m base addr = { output := [], ledWrite := none, halts := false } := by
  unfold check_address
  rw [if_neg (by omega)]

theorem check_address_no_upper_bound_witness :
    check_address "Function not found in external memory." 402653184 1502186962944 =
      { output := [], ledWrite := none, halts := false } :=
  check_address_no_upper_bound "Function not found in external memory."
    402653184 1502186962944 (by decide)

/-- Claim C10: with a zero status, `check_status` is a complete no-op:
no console output, no LED write, no halt — execution falls through to
the next step of the caller. -/
theorem check_status_zero_noop (m : String) :
    check_status m 0 = { output := [], ledWrite := none, halts := false } := rfl

theorem printBytes_eq (buf : Nat → Fin 256) (rem : Nat) :
    ∀ index, printBytes buf index rem =
      List.flatten ((List.range rem).map (fun j =>
        ["0x" ++ hex2 (buf (index + j)) ++ " "] ++
        if (index + j + 1) % NUM_BYTES_PER_LINE = 0 then ["\n"] else [])) := by
  induction rem with
  | zero => intro index; simp [printBytes]
  | succ n ih =>
    intro index
    have hfun : ((fun j => ["0x" ++ hex2 (buf (index + j)) ++ " "] ++
        if (index + j + 1) % NUM_BYTES_PER_LINE = 0 then ["\n"] else []) ∘ Nat.succ)
        = (fun j => ["0x" ++ hex2 (buf (index + 1 + j)) ++ " "] ++
        if (index + 1 + j + 1) % NUM_BYTES_PER_LINE = 0 then ["\n"] else []) := by
      funext j
      have hrw : index + 1 + j = index + (j + 1) := by omega
      simp [Function.comp, Nat.succ_eq_add_one, hrw]
    rw [printBytes, ih (index + 1), List.range_succ_eq_map, List.map_cons, List.map_map, hfun]
    simp [List.flatten]

/-- Claim C8: for every buffer and size, `print_array` prints the
buffer's bytes as space-separated two-digit hexadecimal values in index
order, emitting a newline after every 16th byte (preceded by the two
header lines). -/
theorem print_array_hex_dump (m : String) (buf : Nat → Fin 256) (size : Nat) :
    print_array m buf size =
      ["\n" ++ m ++ " (" ++ toString size ++ " bytes):\n",
       "-------------------------\n"] ++
      List.flatten ((List.range size).map (fun index =>
        ["0x" ++ hex2 (buf index) ++ " "] ++
        if (index + 1) % NUM_BYTES_PER_LINE = 0 then ["\n"] else [])) := by
  rw [print_array, printBytes_eq buf size 0]
  simp

/-- Claim C1: if any driver call of the self-test (erase, read, write)
returns a nonzero status, or the byte compare of the written pattern
against the read-back buffer over the full packet length finds any
mismatch, the run ends in the terminal failure state: the diagnostic
block with the message and the nonzero numeric code is printed, the LED
is set to the failure-visible state, and the program parks forever
(`Final.failedStatus` models the `while(true)` loop). -/
theorem selfTest_failure_terminal (d : Driver)
    (h : d.eraseStatus ≠ 0 ∨ d.readStatus1 ≠ 0 ∨ d.writeStatus ≠ 0 ∨ d.readStatus2 ≠ 0 ∨
      ∃ i, i < PACKET_SIZE ∧ txBuffer i ≠ d.readData2 i) :
    (runMain d).statusFailureVisible := by
  by_cases h0 : d.initStatus = 0
  · by_cases h1 : d.eraseStatus = 0
    · by_cases h2 : d.readStatus1 = 0
      · by_cases h3 : d.writeStatus = 0
        · by_cases h4 : d.readStatus2 = 0
          · have hmm : ∃ i, i < PACKET_SIZE ∧ txBuffer i ≠ d.readData2 i := by tauto
            have hcmp : u32ofInt (memcmp txBuffer d.readData2 PACKET_SIZE) ≠ 0 :=
              u32_memcmp_ne_zero _ _ _ hmm
            simp only [runMain, h0, h1, h2, h3, h4, hcmp, ne_eq, not_true_eq_false,
              if_false, if_true, not_false_eq_true, ite_true, ite_false]
            exact failResult_visible _ _ _ _ _ hcmp
          · simp only [runMain, h0, h1, h2, h3, h4, ne_eq, not_true_eq_false,
              if_false, if_true, not_false_eq_true, ite_true, ite_false]
            exact failResult_visible _ _ _ _ _ h4
        · simp only [runMain, h0, h1, h2, h3, ne_eq, not_true_eq_false,
            if_false, if_true, not_false_eq_true, ite_true, ite_false]
          exact failResult_visible _ _ _ _ _ h3
      · simp only [runMain, h0, h1, h2, ne_eq, not_true_eq_false,
          if_false, if_true, not_false_eq_true, ite_true, ite_false]
        exact failResult_visible _ _ _ _ _ h2
    · simp only [runMain, h0, h1, ne_eq, not_true_eq_false,
        if_false, if_true, not_false_eq_true, ite_true, ite_false]
      exact failResult_visible _ _ _ _ _ h1
  · simp only [runMain, h0, ne_eq, not_false_eq_true, ite_true]
    exact failResult_visible _ _ _ _ _ h0

theorem selfTest_failure_terminal_witness :
    (runMain { okDriver with eraseStatus := 1 }).statusFailureVisible :=
  selfTest_failure_terminal { okDriver with eraseStatus := 1 } (Or.inl (by decide))

/-- Claim C4: once the terminal failure state is entered, no subsequent
step executes: in particular, whenever the post-write read reports a
nonzero status, the XIP-enable driver call is never invoked during the
run, the LED is left in the failure-visible (on) state, and the run
ends in a terminal failure state. -/
theorem readback_failure_no_xip (d : Driver) (h : d.readStatus2 ≠ 0) :
    Call.enableXip ∉ (runMain d).calls ∧ (runMain d).led = Led.on ∧
    (runMain d).final.isTerminalFailure = true := by
  by_cases h0 : d.initStatus = 0
  · by_cases h1 : d.eraseStatus = 0
    · by_cases h2 : d.readStatus1 = 0
      · by_cases h3 : d.writeStatus = 0
        · simp [runMain, h0, h1, h2, h3, h, failResult, Final.isTerminalFailure]
        · simp [runMain, h0, h1, h2, h3, failResult, Final.isTerminalFailure]
      · simp [runMain, h0, h1, h2, failResult, Final.isTerminalFailure]
    · simp [runMain, h0, h1, failResult, Final.isTerminalFailure]
  · simp [runMain, h0, failResult, Final.isTerminalFailure]

theorem readback_failure_no_xip_witness :
    Call.enableXip ∉ (runMain { okDriver with readStatus2 := 5 }).calls ∧
    (runMain { okDriver with readStatus2 := 5 }).led = Led.on ∧
    (runMain { okDriver with readStatus2 := 5 }).final.isTerminalFailure = true :=
  readback_failure_no_xip { okDriver with readStatus2 := 5 } (by decide)

/-- Claim C7: in the read-after-erase step (init and erase having
succeeded), the run halts in the terminal failure state at that step if
and only if the read call itself returned a nonzero status; the bytes
the read deposited are never checked and cannot influence the outcome —
replacing them changes neither the final state, nor the driver calls
issued, nor the LED (they are only printed for inspection). -/
theorem read_after_erase_status_only (d : Driver) (data2 : Nat → Fin 256)
    (h0 : d.initStatus = 0) (h1 : d.eraseStatus = 0) :
    (failedAtStep (runMain d).final Step.readAfterErase = true ↔ d.readStatus1 ≠ 0) ∧
    (runMain { d with readData1 := data2 }).final = (runMain d).final ∧
    (runMain { d with readData1 := data2 }).calls = (runMain d).calls ∧
    (runMain { d with readData1 := data2 }).led = (runMain d).led := by
  by_cases h2 : d.readStatus1 = 0
  · by_cases h3 : d.writeStatus = 0
    · by_cases h4 : d.readStatus2 = 0
      · by_cases h5 : u32ofInt (memcmp txBuffer d.readData2 PACKET_SIZE) = 0
        · by_cases h6 : d.baseAddress > d.hiWordAddr
          · simp [runMain, h0, h1, h2, h3, h4, h5, h6,
              failedAtStep, failResult, addrFailResult]
          · by_cases h7 : d.baseAddress > d.funcAddr
            · simp [runMain, h0, h1, h2, h3, h4, h5, h6, h7,
                failedAtStep, failResult, addrFailResult]
            · simp [runMain, h0, h1, h2, h3, h4, h5, h6, h7,
                failedAtStep, failResult, addrFailResult]
        · simp [runMain, h0, h1, h2, h3, h4, h5,
            failedAtStep, failResult, addrFailResult]
      · simp [runMain, h0, h1, h2, h3, h4, failedAtStep, failResult, addrFailResult]
    · simp [runMain, h0, h1, h2, h3, failedAtStep, failResult, addrFailResult]
  · simp [runMain, h0, h1, h2, failedAtStep, failResult, addrFailResult]

theorem read_after_erase_status_only_witness :
    (failedAtStep (runMain okDriver).final Step.readAfterErase = true ↔
      okDriver.readStatus1 ≠ 0) ∧
    (runMain { okDriver with readData1 := fun _ => (0 : Fin 256) }).final =
      (runMain okDriver).final ∧
    (runMain { okDriver with readData1 := fun _ => (0 : Fin 256) }).calls =
      (runMain okDriver).calls ∧
    (runMain { okDriver with readData1 := fun _ => (0 : Fin 256) }).led =
      (runMain okDriver).led :=
  read_after_erase_status_only okDriver (fun _ => (0 : Fin 256)) rfl rfl
